import Mathlib

/-!
Shallow embedding of the Context lifecycle core of `rclrs`
(`src/rclrs/src/context.rs` and `src/rclrs/src/context/default_context.rs`).

The native `rcl` layer (an external collaborator) is modelled by an
environment `NativeEnv` fixing the return codes that `rcl_shutdown` and
`rcl_context_fini` report, and a `BuildEnv` fixing the process environment
(`ROS_DOMAIN_ID`), the platform default domain id, and the outcome of the
native initialization for a given argument list.

Stateful Rust methods become explicit state-passing functions that also
return a trace of `Event`s (lock acquisition/release, native calls,
callback invocations), so that ordering claims about locks and callbacks
can be stated.  A Rust `panic!` is modelled as `Except.error` with the
panic message; a normal return as `Except.ok`.
-/

namespace Rclrs

/-- Observable events of a single operation on a context: acquiring and
releasing the internal mutex, the native shutdown and finalize calls with
the return code they report, and the invocation of a registered shutdown
callback (tagged by the callback's identifier). -/
inductive Event where
  | lockAcquire : Event
  | lockRelease : Event
  | nativeShutdown (ret : Int) : Event
  | nativeFini (ret : Int) : Event
  | callbackInvoked (id : Nat) : Event
  deriving DecidableEq, Repr

/-- The native `rcl_context_t` contents as far as the wrapper observes them:
a validity flag and the domain id stored at initialization. -/
structure RclContextT where
  valid : Bool
  domainId : Nat
  deriving DecidableEq, Repr

/-- `Context` from `src/rclrs/src/context.rs`: the mutex-guarded native
handle plus the optional registered shutdown callback.  Callbacks are
opaque capabilities; we represent one by a numeric identifier. -/
structure Context where
  rcl_context : RclContextT
  shutdown_callback : Option Nat
  deriving DecidableEq, Repr

/-- Return codes the external native layer reports from `rcl_shutdown` and
`rcl_context_fini` (0 is success). -/
structure NativeEnv where
  shutdownRet : Int
  finiRet : Int
  deriving DecidableEq, Repr

/-- `rcl_context_is_valid`: reads the validity flag; no preconditions. -/
def rcl_context_is_valid (c : RclContextT) : Bool :=
  c.valid

/-- `to_rclrs_result` from `src/rclrs/src/error.rs` as used here: return
code 0 is `Ok`, anything else is an error carrying the code. -/
def to_rclrs_result (ret : Int) : Except Int Unit :=
  if ret = 0 then Except.ok () else Except.error ret

/-- Effect of the native `rcl_shutdown` call on the handle: on success the
handle becomes invalid; on a reported failure the handle state is left as
is (the wrapper treats the failure before looking at the handle again). -/
def rcl_shutdown_effect (c : RclContextT) (ret : Int) : RclContextT :=
  if ret = 0 then { c with valid := false } else c

/-- `Context::ok` (`context.rs` lines 61-67): lock, delegate to
`rcl_context_is_valid`, unlock.  Pure read, no side effects. -/
def Context.ok (self : Context) : Bool :=
  rcl_context_is_valid self.rcl_context

/-- `Context::add_on_shutdown_callback` (`context.rs` lines 159-161):
stores the callback, replacing any previous one. -/
def Context.add_on_shutdown_callback (self : Context) (callback : Nat) : Context :=
  { self with shutdown_callback := some callback }

/-- `Context::shutdown` (`context.rs` lines 171-192).  The `MutexGuard`
created at the top of the function lives until the end of the `unsafe`
block, so the lock is held across the native shutdown AND across the
callback invocation; it is released at the early `return false` or at the
very end of the function.  A failed native shutdown panics. -/
def Context.shutdown (env : NativeEnv) (self : Context) :
    List Event × Except String (Bool × Context) :=
  if !rcl_context_is_valid self.rcl_context then
    ([Event.lockAcquire, Event.lockRelease], Except.ok (false, self))
  else
    let ret := env.shutdownRet
    let rcl' := rcl_shutdown_effect self.rcl_context ret
    match to_rclrs_result ret with
    | Except.error _ =>
        ([Event.lockAcquire, Event.nativeShutdown ret],
         Except.error "Failed to finalize context")
    | Except.ok () =>
        match self.shutdown_callback with
        | some cb =>
            ([Event.lockAcquire, Event.nativeShutdown ret,
              Event.callbackInvoked cb, Event.lockRelease],
             Except.ok (true, { self with rcl_context := rcl' }))
        | none =>
            ([Event.lockAcquire, Event.nativeShutdown ret, Event.lockRelease],
             Except.ok (true, { self with rcl_context := rcl' }))

/-- `impl Drop for rcl_context_t` (`context.rs` lines 11-27): if the handle
is still valid, call the native shutdown (its return code is NOT checked),
then call the native finalize; a failed finalize panics. -/
def rcl_context_t_drop (env : NativeEnv) (c : RclContextT) :
    List Event × Except String Unit :=
  let pre : List Event × RclContextT :=
    if rcl_context_is_valid c then
      ([Event.nativeShutdown env.shutdownRet], rcl_shutdown_effect c env.shutdownRet)
    else
      ([], c)
  match to_rclrs_result env.finiRet with
  | Except.error _ =>
      (pre.1 ++ [Event.nativeFini env.finiRet], Except.error "Failed to finalize context")
  | Except.ok () =>
      (pre.1 ++ [Event.nativeFini env.finiRet], Except.ok ())

/-- `Arc<Mutex<rcl_context_t>>` shared ownership: a strong count together
with the guarded contents.  Dropping one owner decrements the count; the
drop that takes the count to zero runs `Drop for rcl_context_t`. -/
structure ArcState where
  owners : Nat
  contents : RclContextT
  deriving DecidableEq, Repr

/-- Dropping a single shared owner.  Only the last owner's drop produces
events (the run of `Drop for rcl_context_t`). -/
def dropOwner (env : NativeEnv) (s : ArcState) : List Event × Except String ArcState :=
  match s.owners with
  | 0 => ([], Except.ok s)
  | 1 =>
      match rcl_context_t_drop env s.contents with
      | (evs, Except.ok ()) => (evs, Except.ok { owners := 0, contents := s.contents })
      | (evs, Except.error e) => (evs, Except.error e)
  | _ + 2 => ([], Except.ok { s with owners := s.owners - 1 })

/-- Dropping `k` shared owners one after the other, concatenating traces;
a panic during a drop aborts the remaining drops. -/
def dropAll (env : NativeEnv) : Nat → ArcState → List Event × Except String ArcState
  | 0, s => ([], Except.ok s)
  | k + 1, s =>
      match dropOwner env s with
      | (evs, Except.ok s') =>
          let rest := dropAll env k s'
          (evs ++ rest.1, rest.2)
      | (evs, Except.error e) => (evs, Except.error e)

/-- Count how many native finalize calls a trace contains. -/
def countFini : List Event → Nat
  | [] => 0
  | Event.nativeFini _ :: rest => countFini rest + 1
  | _ :: rest => countFini rest

/-- `true` iff no shutdown callback is invoked before the first release of
the internal lock, i.e. the callback only ever runs after the lock has
been released. -/
def callbackAfterUnlock : List Event → Bool
  | [] => true
  | Event.callbackInvoked _ :: _ => false
  | Event.lockRelease :: _ => true
  | _ :: rest => callbackAfterUnlock rest

/-- Count how many callback invocations a trace contains. -/
def countCallback : List Event → Nat
  | [] => 0
  | Event.callbackInvoked _ :: rest => countCallback rest + 1
  | _ :: rest => countCallback rest

/-- Typed construction failure, distinguishing argument-parsing failure
from native resource-allocation failure. -/
inductive ConstructionError where
  | invalidArguments : ConstructionError
  | allocationFailure : ConstructionError
  deriving DecidableEq, Repr

/-- The process environment and native-initialization behaviour seen by
construction: the `ROS_DOMAIN_ID` environment variable (if set), the
platform default domain id, and the outcome of the native argument
parsing/allocation for a given argument list (`none` means success). -/
structure BuildEnv where
  rosDomainId : Option Nat
  platformDefault : Nat
  initOutcome : List String → Option ConstructionError

/-- Domain id resolution order applied at initialization:
explicit builder override > environment variable > platform default. -/
def resolveDomainId (override : Option Nat) (envVar : Option Nat) (dflt : Nat) : Nat :=
  override.getD (envVar.getD dflt)

/-- Modelled from the spec: `ContextBuilder::build`.  The file
`src/rclrs/src/context/builder.rs` is declared by `mod builder;` in
`context.rs` but is not present under `src/`.  Per the spec (sections 4.1
and 4.3), `build()` delegates to the native initialization, which parses
the arguments, applies the domain id resolution order
(explicit override > environment variable > platform default), and returns
a typed `ConstructionError` on failure, never panicking; on success the
resulting handle is valid and no callback is registered yet. -/
def ContextBuilder.build (benv : BuildEnv) (args : List String)
    (domainOverride : Option Nat) : Except ConstructionError Context :=
  match benv.initOutcome args with
  | some e => Except.error e
  | none =>
      Except.ok
        { rcl_context :=
            { valid := true
              domainId := resolveDomainId domainOverride benv.rosDomainId benv.platformDefault }
          shutdown_callback := none }

/-- `Context::new` (`context.rs` lines 53-55): builder with no explicit
domain override, then `build()`. -/
def Context.new (benv : BuildEnv) (args : List String) : Except ConstructionError Context :=
  ContextBuilder.build benv args none

/-- `rcl_context_get_domain_id`: native read of the domain id stored in the
context at initialization; reports success (return code 0). -/
def rcl_context_get_domain_id (c : RclContextT) : Int × Nat :=
  (0, c.domainId)

/-- `Context::domain_id`, non-foxy variant (`context.rs` lines 92-104):
lock, read the stored domain id through the native call, unlock, return
the plain integer.  The native return code is only checked by
`debug_assert_eq!`, which is compiled out of release builds, so no failure
is ever reported to the caller. -/
def Context.domain_id (self : Context) : List Event × Nat :=
  ([Event.lockAcquire, Event.lockRelease],
   (rcl_context_get_domain_id self.rcl_context).2)

/-- `rcl_get_default_domain_id`: native read of the default domain id based
on the environment (per the source comment at `context.rs` line 130),
ignoring any particular context; reports success. -/
def rcl_get_default_domain_id (benv : BuildEnv) : Int × Nat :=
  (0, benv.rosDomainId.getD benv.platformDefault)

/-- `Context::domain_id`, foxy variant (`context.rs` lines 125-136): calls
`rcl_get_default_domain_id` without touching the context handle and
without acquiring the lock; the native return code is only checked by
`debug_assert_eq!`. -/
def Context.domain_id_foxy (benv : BuildEnv) (_self : Context) : List Event × Nat :=
  ([], (rcl_get_default_domain_id benv).2)

/-- `DefaultContext` (`src/rclrs/src/context/default_context.rs`): wrapper
around the one global shared context instance. -/
structure DefaultContext where
  global_default_context : Context
  deriving DecidableEq, Repr

/-- `DefaultContext::get_global_default_context` (`default_context.rs`
lines 17-24), with the `OnceCell` state passed explicitly as an
`Option DefaultContext` (`none` = not yet initialized).  On the first call
the initializer runs `Context::new(args).unwrap()`: a construction failure
panics (modelled as `Except.error` with the panic message).  On every
later call the stored instance is returned unchanged and the arguments are
ignored. -/
def get_global_default_context (benv : BuildEnv) (cell : Option DefaultContext)
    (args : List String) : Except String (DefaultContext × Option DefaultContext) :=
  match cell with
  | some d => Except.ok (d, some d)
  | none =>
      match Context.new benv args with
      | Except.ok c =>
          Except.ok ({ global_default_context := c }, some { global_default_context := c })
      | Except.error _ =>
          Except.error "called unwrap on an Err value"

/-- Running a sequence of `get_global_default_context` calls, threading the
cell state and collecting each call's returned instance. -/
def runDefaultCalls (benv : BuildEnv) (cell : Option DefaultContext) :
    List (List String) → Option DefaultContext × List (Except String DefaultContext)
  | [] => (cell, [])
  | args :: rest =>
      match get_global_default_context benv cell args with
      | Except.ok (d, cell') =>
          let r := runDefaultCalls benv cell' rest
          (r.1, Except.ok d :: r.2)
      | Except.error e => (cell, [Except.error e])

/-- The public operations a holder can perform on a shared context. -/
inductive Op where
  | ok : Op
  | domainId : Op
  | addCallback (cb : Nat) : Op
  | shutdown : Op
  deriving DecidableEq, Repr

/-- State transition of a single operation (`ok` and `domain_id` are pure
reads; a shutdown that panics ends the program, so the state it leaves
behind is never observed — we keep the pre-state). -/
def applyOp (env : NativeEnv) (c : Context) : Op → Context
  | Op.ok => c
  | Op.domainId => c
  | Op.addCallback cb => c.add_on_shutdown_callback cb
  | Op.shutdown =>
      match (c.shutdown env).2 with
      | Except.ok (_, c') => c'
      | Except.error _ => c

/-- State after a sequence of operations. -/
def applyOps (env : NativeEnv) (c : Context) : List Op → Context
  | [] => c
  | op :: ops => applyOps env (applyOp env c op) ops

/-- Iterating `shutdown()` `n` times from a given state, collecting the
boolean each call returns (a panicking call ends the sequence). -/
def shutdownIter (env : NativeEnv) (c : Context) : Nat → Context × List Bool
  | 0 => (c, [])
  | n + 1 =>
      match (c.shutdown env).2 with
      | Except.ok (b, c') =>
          let r := shutdownIter env c' n
          (r.1, b :: r.2)
      | Except.error _ => (c, [])

/-- On an already-invalid context, `shutdown` acquires and releases the
lock, returns `false`, and leaves the context untouched. -/
theorem shutdown_invalid (env : NativeEnv) (c : Context) (h : c.ok = false) :
    Context.shutdown env c =
      ([Event.lockAcquire, Event.lockRelease], Except.ok (false, c)) := by
  have h' : c.rcl_context.valid = false := h
  unfold Context.shutdown
  simp [rcl_context_is_valid, h']

/-- On a valid context, when the native shutdown succeeds, `shutdown`
returns `true` with the handle invalidated (for any registered callback). -/
theorem shutdown_valid_result (env : NativeEnv) (c : Context)
    (hv : c.ok = true) (hr : env.shutdownRet = 0) :
    (Context.shutdown env c).2 =
      Except.ok (true, { c with rcl_context := { c.rcl_context with valid := false } }) := by
  have h' : c.rcl_context.valid = true := hv
  unfold Context.shutdown
  cases hcb : c.shutdown_callback <;>
    simp [rcl_context_is_valid, h', hr, to_rclrs_result, rcl_shutdown_effect, hcb]

/-- Iterating `shutdown` from an invalid context returns `false` every time
and never changes the state. -/
theorem shutdownIter_invalid (env : NativeEnv) (c : Context) (h : c.ok = false) :
    ∀ n, shutdownIter env c n = (c, List.replicate n false) := by
  intro n
  induction n with
  | zero => rfl
  | succ n ih =>
      unfold shutdownIter
      rw [shutdown_invalid env c h]
      simp [ih, List.replicate_succ]

/-- `applyOp` never turns an invalid context valid again. -/
theorem applyOp_preserves_invalid (env : NativeEnv) (c : Context) (op : Op)
    (h : c.ok = false) : (applyOp env c op).ok = false := by
  cases op with
  | ok => exact h
  | domainId => exact h
  | addCallback cb => exact h
  | shutdown =>
      unfold applyOp
      rw [shutdown_invalid env c h]
      exact h

/-- The context a `shutdown()` returning `true` produces under a
successful native shutdown. -/
def afterShutdown (c : Context) : Context :=
  { c with rcl_context := { c.rcl_context with valid := false } }

/-- C1 evaluation: a valid context with a registered shutdown callback
(id 7).  Running `shutdown()` produces the trace lock-acquire, native
shutdown, callback invocation, lock-release: the callback runs exactly
once, after the handle has become invalid, but STRICTLY BEFORE the
internal lock is released — the `MutexGuard` in the source lives to the
end of the function, so a callback that calls `ok()` on the same context
would try to re-acquire the held (non-reentrant) lock and deadlock,
contrary to the claim that the callback runs only after the lock has been
released. -/
theorem shutdown_invokes_callback_before_lock_release :
    Context.shutdown { shutdownRet := 0, finiRet := 0 }
        { rcl_context := { valid := true, domainId := 0 }, shutdown_callback := some 7 } =
      ([Event.lockAcquire, Event.nativeShutdown 0,
        Event.callbackInvoked 7, Event.lockRelease],
       Except.ok (true,
        { rcl_context := { valid := false, domainId := 0 }, shutdown_callback := some 7 })) ∧
    callbackAfterUnlock (Context.shutdown { shutdownRet := 0, finiRet := 0 }
        { rcl_context := { valid := true, domainId := 0 }, shutdown_callback := some 7 }).1
      = false ∧
    countCallback (Context.shutdown { shutdownRet := 0, finiRet := 0 }
        { rcl_context := { valid := true, domainId := 0 }, shutdown_callback := some 7 }).1
      = 1 :=
  ⟨rfl, rfl, rfl⟩

/-- C2: on a valid (freshly built) context, when the native shutdown
succeeds, the first `shutdown()` returns `true` and flips `ok()` to
`false`; every one of the `n` subsequent `shutdown()` calls returns
`false` and `ok()` stays `false`. -/
theorem first_shutdown_true_then_all_false (env : NativeEnv) (c : Context) (n : Nat)
    (hv : c.ok = true) (hr : env.shutdownRet = 0) :
    shutdownIter env c (n + 1) = (afterShutdown c, true :: List.replicate n false) ∧
    (afterShutdown c).ok = false := by
  refine ⟨?_, rfl⟩
  have hiter := shutdownIter_invalid env (afterShutdown c) rfl n
  unfold shutdownIter
  rw [shutdown_valid_result env c hv hr]
  simp only [afterShutdown] at hiter ⊢
  simp [hiter]

/-- C2 witness: a concrete fresh context, one `shutdown()` returning
`true` followed by two returning `false`, ending invalid. -/
theorem first_shutdown_true_then_all_false_witness :
    shutdownIter { shutdownRet := 0, finiRet := 0 }
        { rcl_context := { valid := true, domainId := 0 }, shutdown_callback := none } (2 + 1) =
      (afterShutdown { rcl_context := { valid := true, domainId := 0 }, shutdown_callback := none },
       true :: List.replicate 2 false) ∧
    (afterShutdown
        { rcl_context := { valid := true, domainId := 0 }, shutdown_callback := none }).ok
      = false :=
  first_shutdown_true_then_all_false { shutdownRet := 0, finiRet := 0 }
    { rcl_context := { valid := true, domainId := 0 }, shutdown_callback := none } 2 rfl rfl

/-- C4: shutdown is monotonic — once `ok()` is `false`, no sequence of
`ok` / `domain_id` / `add_on_shutdown_callback` / `shutdown` operations
ever makes `ok()` return `true` again. -/
theorem shutdown_is_monotonic (env : NativeEnv) (c : Context) (ops : List Op)
    (h : c.ok = false) : (applyOps env c ops).ok = false := by
  induction ops generalizing c with
  | nil => exact h
  | cons op ops ih => exact ih _ (applyOp_preserves_invalid env c op h)

/-- C4 witness: a concrete shut-down context stays invalid across a
concrete operation sequence. -/
theorem shutdown_is_monotonic_witness :
    (applyOps { shutdownRet := 0, finiRet := 0 }
      { rcl_context := { valid := false, domainId := 3 }, shutdown_callback := none }
      [Op.shutdown, Op.ok, Op.addCallback 5, Op.domainId, Op.shutdown]).ok = false :=
  shutdown_is_monotonic { shutdownRet := 0, finiRet := 0 }
    { rcl_context := { valid := false, domainId := 3 }, shutdown_callback := none }
    [Op.shutdown, Op.ok, Op.addCallback 5, Op.domainId, Op.shutdown] rfl

/-- C9: `shutdown()` on an already-invalid context returns `false` with no
side effects: the only events are the lock acquire/release, the native
shutdown is not invoked, the callback is not invoked, and the context
(handle state and registered callback) is returned unchanged. -/
theorem shutdown_on_invalid_is_noop (env : NativeEnv) (c : Context) (h : c.ok = false) :
    Context.shutdown env c =
      ([Event.lockAcquire, Event.lockRelease], Except.ok (false, c)) ∧
    countCallback (Context.shutdown env c).1 = 0 ∧
    ∀ r, Event.nativeShutdown r ∉ (Context.shutdown env c).1 := by
  have hs := shutdown_invalid env c h
  refine ⟨hs, ?_, ?_⟩ <;> rw [hs] <;> simp [countCallback]

/-- C9 witness: a concrete invalid context with a registered callback. -/
theorem shutdown_on_invalid_is_noop_witness :
    Context.shutdown { shutdownRet := 3, finiRet := 4 }
        { rcl_context := { valid := false, domainId := 5 }, shutdown_callback := some 9 } =
      ([Event.lockAcquire, Event.lockRelease],
       Except.ok (false,
        { rcl_context := { valid := false, domainId := 5 }, shutdown_callback := some 9 })) :=
  (shutdown_on_invalid_is_noop { shutdownRet := 3, finiRet := 4 }
    { rcl_context := { valid := false, domainId := 5 }, shutdown_callback := some 9 } rfl).1

/-- C10: `domain_id()` never reports failure to its caller: for every
context, valid or already shut down, the non-foxy variant locks, returns
the plain stored integer, and unlocks (the native return code is only
checked by a debug assertion, absent from release builds); the foxy
variant ignores the context handle entirely (its result is the same for
any two contexts) and acquires no lock. -/
theorem domain_id_total_and_foxy_ignores_handle (c c' : Context) (benv : BuildEnv) :
    Context.domain_id c =
      ([Event.lockAcquire, Event.lockRelease], c.rcl_context.domainId) ∧
    Context.domain_id_foxy benv c = Context.domain_id_foxy benv c' ∧
    (Context.domain_id_foxy benv c).1 = [] :=
  ⟨rfl, rfl, rfl⟩

/-- Dropping all `k` owners of a shared handle (native finalize
succeeding): the first `k - 1` drops are silent; the last one shuts the
handle down first if it is still valid and then finalizes it. -/
theorem dropAll_trace (env : NativeEnv) (c : RclContextT) (hf : env.finiRet = 0) :
    ∀ k, 1 ≤ k →
      dropAll env k { owners := k, contents := c } =
        ((if c.valid then
            [Event.nativeShutdown env.shutdownRet, Event.nativeFini env.finiRet]
          else [Event.nativeFini env.finiRet]),
         Except.ok { owners := 0, contents := c }) := by
  intro k
  induction k with
  | zero => omega
  | succ k ih =>
      intro _
      cases k with
      | zero =>
          unfold dropAll dropOwner rcl_context_t_drop
          cases hv : c.valid <;>
            simp [rcl_context_is_valid, hv, hf, to_rclrs_result, rcl_shutdown_effect, dropAll]
      | succ m =>
          have ih' := ih (by omega)
          unfold dropAll dropOwner
          simp only [Nat.add_sub_cancel]
          rw [ih']
          simp

/-- C3: for a handle shared by `k ≥ 1` owners, dropping all the owners
triggers native finalization exactly once (under a succeeding native
finalize), in whatever state the handle is — and if the handle is still
valid at that point (no explicit `shutdown()` happened), it is shut down
first and then finalized, while an already-invalid handle is only
finalized.  The owners of an `Arc` are indistinguishable, so this covers
every drop order. -/
theorem finalize_exactly_once_on_last_drop (env : NativeEnv) (c : RclContextT) (k : Nat)
    (hk : 1 ≤ k) (hf : env.finiRet = 0) :
    countFini (dropAll env k { owners := k, contents := c }).1 = 1 ∧
    (dropAll env k { owners := k, contents := c }).2 =
      Except.ok { owners := 0, contents := c } ∧
    (c.valid = true →
      (dropAll env k { owners := k, contents := c }).1 =
        [Event.nativeShutdown env.shutdownRet, Event.nativeFini env.finiRet]) ∧
    (c.valid = false →
      (dropAll env k { owners := k, contents := c }).1 =
        [Event.nativeFini env.finiRet]) := by
  have h := dropAll_trace env c hf k hk
  rw [h]
  cases hv : c.valid <;> simp [hv, countFini]

/-- C3 witness: three owners of a still-valid handle; the two silent drops
are followed by one shutdown-then-finalize, and the finalize count is 1. -/
theorem finalize_exactly_once_on_last_drop_witness :
    countFini (dropAll { shutdownRet := 0, finiRet := 0 } 3
      { owners := 3, contents := { valid := true, domainId := 0 } }).1 = 1 ∧
    (dropAll { shutdownRet := 0, finiRet := 0 } 3
      { owners := 3, contents := { valid := true, domainId := 0 } }).2 =
      Except.ok { owners := 0, contents := { valid := true, domainId := 0 } } :=
  ⟨(finalize_exactly_once_on_last_drop { shutdownRet := 0, finiRet := 0 }
      { valid := true, domainId := 0 } 3 (by decide) rfl).1,
   (finalize_exactly_once_on_last_drop { shutdownRet := 0, finiRet := 0 }
      { valid := true, domainId := 0 } 3 (by decide) rfl).2.1⟩

/-- Once the global cell is initialized, every further call returns the
stored instance, unchanged, whatever its arguments are. -/
theorem runDefaultCalls_initialized (benv : BuildEnv) (d : DefaultContext) :
    ∀ argss, runDefaultCalls benv (some d) argss =
      (some d, argss.map fun _ => Except.ok d) := by
  intro argss
  induction argss with
  | nil => rfl
  | cons a rest ih =>
      unfold runDefaultCalls
      simp [get_global_default_context, ih]

/-- C5: when the first call to `get_global_default_context` succeeds in
building the context, every call in the whole sequence — whatever
arguments the later calls pass — returns the identical single instance
built on the first call, and the cell ends up holding exactly that
instance; moreover, once the cell is initialized, the call's result is
independent of both the arguments and the construction environment
(so no second construction can occur). -/
theorem default_context_returns_single_instance (benv : BuildEnv) (args0 : List String)
    (rest : List (List String)) (c : Context)
    (h : Context.new benv args0 = Except.ok c) :
    runDefaultCalls benv none (args0 :: rest) =
      (some { global_default_context := c },
       Except.ok { global_default_context := c } ::
         rest.map fun _ => Except.ok { global_default_context := c }) ∧
    ∀ (benv' : BuildEnv) (d : DefaultContext) (a : List String),
      get_global_default_context benv' (some d) a = Except.ok (d, some d) := by
  refine ⟨?_, fun benv' d a => rfl⟩
  unfold runDefaultCalls
  simp only [get_global_default_context, h]
  rw [runDefaultCalls_initialized benv { global_default_context := c } rest]

/-- C5 witness: a concrete succeeding environment; three calls with three
different argument lists all yield the same instance. -/
theorem default_context_returns_single_instance_witness :
    runDefaultCalls
        { rosDomainId := none, platformDefault := 0, initOutcome := fun _ => none }
        none [["x"], ["y"], ["z"]] =
      (some { global_default_context :=
               { rcl_context := { valid := true, domainId := 0 }, shutdown_callback := none } },
       [Except.ok { global_default_context :=
          { rcl_context := { valid := true, domainId := 0 }, shutdown_callback := none } },
        Except.ok { global_default_context :=
          { rcl_context := { valid := true, domainId := 0 }, shutdown_callback := none } },
        Except.ok { global_default_context :=
          { rcl_context := { valid := true, domainId := 0 }, shutdown_callback := none } }]) := by
  simpa using
    (default_context_returns_single_instance
      { rosDomainId := none, platformDefault := 0, initOutcome := fun _ => none }
      ["x"] [["y"], ["z"]]
      { rcl_context := { valid := true, domainId := 0 }, shutdown_callback := none } rfl).1

/-- C6 counterexample: with a construction environment whose native
initialization rejects the arguments, triggering construction through the
default-context path does NOT surface a typed `ConstructionError`: the
`unwrap()` in `get_global_default_context` panics, refuting the claim that
a construction failure never causes a panic on this path. -/
theorem default_context_construction_failure_panics :
    get_global_default_context
        { rosDomainId := none, platformDefault := 0,
          initOutcome := fun _ => some ConstructionError.invalidArguments }
        none [] =
      Except.error "called unwrap on an Err value" :=
  rfl

/-- C6 amended: a construction failure is surfaced as the typed
`ConstructionError` (distinguishing invalid arguments from allocation
failure) by `Context::new` / `ContextBuilder::build`, which never panic —
but when construction is triggered through the default-context path, the
`unwrap()` turns the same failure into a panic instead of a typed
result. -/
theorem construction_failure_typed_error_but_default_path_panics
    (benv : BuildEnv) (args : List String) (e : ConstructionError)
    (h : benv.initOutcome args = some e) :
    Context.new benv args = Except.error e ∧
    (∀ o, ContextBuilder.build benv args o = Except.error e) ∧
    get_global_default_context benv none args =
      Except.error "called unwrap on an Err value" := by
  refine ⟨?_, fun o => ?_, ?_⟩ <;>
    simp [Context.new, ContextBuilder.build, get_global_default_context, h]

/-- C6 witness: a concrete failing construction environment — typed error
through `Context::new`, panic through the default-context path. -/
theorem construction_failure_typed_error_but_default_path_panics_witness :
    Context.new
        { rosDomainId := none, platformDefault := 0,
          initOutcome := fun _ => some ConstructionError.allocationFailure } ["a"] =
      Except.error ConstructionError.allocationFailure ∧
    get_global_default_context
        { rosDomainId := none, platformDefault := 0,
          initOutcome := fun _ => some ConstructionError.allocationFailure }
        none ["a"] =
      Except.error "called unwrap on an Err value" :=
  ⟨(construction_failure_typed_error_but_default_path_panics
      { rosDomainId := none, platformDefault := 0,
        initOutcome := fun _ => some ConstructionError.allocationFailure }
      ["a"] ConstructionError.allocationFailure rfl).1,
   (construction_failure_typed_error_but_default_path_panics
      { rosDomainId := none, platformDefault := 0,
        initOutcome := fun _ => some ConstructionError.allocationFailure }
      ["a"] ConstructionError.allocationFailure rfl).2.2⟩

/-- C7 counterexample: during last-owner finalization of a still-valid
handle, the native shutdown reports failure (return code 1), yet the run
completes normally (`Except.ok`), silently continuing to the finalize —
no abnormal termination, refuting the claim for the native shutdown call
made inside `Drop`. -/
theorem drop_continues_after_native_shutdown_failure :
    rcl_context_t_drop { shutdownRet := 1, finiRet := 0 } { valid := true, domainId := 0 } =
      ([Event.nativeShutdown 1, Event.nativeFini 0], Except.ok ()) :=
  rfl

/-- C7 amended: a native shutdown failure inside `shutdown()` panics, and
a native finalize failure inside last-owner finalization panics — but the
native shutdown call made during last-owner finalization has its return
code ignored: when the finalize itself succeeds, the drop completes
normally even though the native shutdown reported failure. -/
theorem native_failure_fatal_except_shutdown_in_drop
    (env : NativeEnv) (c : Context) (hc : RclContextT)
    (hv : c.ok = true) (hsr : env.shutdownRet ≠ 0) :
    (Context.shutdown env c).2 = Except.error "Failed to finalize context" ∧
    (env.finiRet ≠ 0 →
      (rcl_context_t_drop env hc).2 = Except.error "Failed to finalize context") ∧
    (env.finiRet = 0 → (rcl_context_t_drop env hc).2 = Except.ok ()) := by
  have h' : c.rcl_context.valid = true := hv
  refine ⟨?_, fun hfr => ?_, fun hfr => ?_⟩
  · unfold Context.shutdown
    simp [rcl_context_is_valid, h', to_rclrs_result, hsr]
  · unfold rcl_context_t_drop
    simp [to_rclrs_result, hfr]
  · unfold rcl_context_t_drop
    simp [to_rclrs_result, hfr]

/-- C7 witness: concrete failing native return codes on a concrete valid
context and handle. -/
theorem native_failure_fatal_except_shutdown_in_drop_witness :
    (Context.shutdown { shutdownRet := 1, finiRet := 0 }
        { rcl_context := { valid := true, domainId := 0 }, shutdown_callback := none }).2 =
      Except.error "Failed to finalize context" ∧
    ((1 : Int) ≠ 0 →
      (rcl_context_t_drop { shutdownRet := 1, finiRet := 1 }
          { valid := true, domainId := 0 }).2 =
        Except.error "Failed to finalize context") :=
  ⟨(native_failure_fatal_except_shutdown_in_drop { shutdownRet := 1, finiRet := 0 }
      { rcl_context := { valid := true, domainId := 0 }, shutdown_callback := none }
      { valid := true, domainId := 0 } rfl (by decide)).1,
   fun _ =>
    (native_failure_fatal_except_shutdown_in_drop { shutdownRet := 1, finiRet := 1 }
      { rcl_context := { valid := true, domainId := 0 }, shutdown_callback := none }
      { valid := true, domainId := 0 } rfl (by decide)).2.1 (by decide)⟩

/-- Inversion of a successful `build()`: the native initialization
accepted the arguments and the resulting context is fresh (valid handle,
resolved domain id, no callback). -/
theorem build_ok_inv (benv : BuildEnv) (args : List String) (o : Option Nat) (c : Context)
    (h : ContextBuilder.build benv args o = Except.ok c) :
    benv.initOutcome args = none ∧
    c = { rcl_context :=
            { valid := true
              domainId := resolveDomainId o benv.rosDomainId benv.platformDefault }
          shutdown_callback := none } := by
  unfold ContextBuilder.build at h
  cases hio : benv.initOutcome args with
  | none =>
      rw [hio] at h
      simp only [Except.ok.injEq] at h
      exact ⟨rfl, h.symm⟩
  | some e =>
      rw [hio] at h
      simp at h

/-- C8 counterexample: environment variable 10, platform default 0, a
context successfully built with an explicit builder override of 11 —
under the foxy configuration `domain_id()` returns 10 (the
environment-derived default), not 11, refuting "returns 11 regardless of
the environment variable" for that configuration of the source. -/
theorem foxy_domain_id_ignores_override :
    ContextBuilder.build
        { rosDomainId := some 10, platformDefault := 0, initOutcome := fun _ => none }
        [] (some 11) =
      Except.ok { rcl_context := { valid := true, domainId := 11 }, shutdown_callback := none } ∧
    (Context.domain_id_foxy
        { rosDomainId := some 10, platformDefault := 0, initOutcome := fun _ => none }
        { rcl_context := { valid := true, domainId := 11 }, shutdown_callback := none }).2
      = 10 ∧
    ¬(Context.domain_id_foxy
        { rosDomainId := some 10, platformDefault := 0, initOutcome := fun _ => none }
        { rcl_context := { valid := true, domainId := 11 }, shutdown_callback := none }).2
      = 11 :=
  ⟨rfl, rfl, by decide⟩

/-- C8 amended: with the `ROS_DOMAIN_ID` environment variable set, the
non-foxy `domain_id()` follows the precedence explicit builder override >
environment variable > platform default — no override yields the
environment value, an override of `o` yields `o` regardless of the
environment — while the foxy `domain_id()` ignores the builder override
and returns the environment-derived default. -/
theorem domain_id_precedence_nonfoxy_and_foxy_default
    (benv : BuildEnv) (envv : Nat) (args : List String) (o : Nat) (c c' : Context)
    (he : benv.rosDomainId = some envv)
    (h1 : ContextBuilder.build benv args none = Except.ok c)
    (h2 : ContextBuilder.build benv args (some o) = Except.ok c') :
    (Context.domain_id c).2 = envv ∧
    (Context.domain_id c').2 = o ∧
    (Context.domain_id_foxy benv c').2 = envv ∧
    (Context.domain_id_foxy benv c).2 = envv := by
  obtain ⟨-, hc⟩ := build_ok_inv benv args none c h1
  obtain ⟨-, hc'⟩ := build_ok_inv benv args (some o) c' h2
  subst hc hc'
  simp [Context.domain_id, Context.domain_id_foxy, rcl_context_get_domain_id,
        rcl_get_default_domain_id, resolveDomainId, he]

/-- C8 witness: environment variable 10, override 11 — non-foxy
`domain_id()` is 10 without the override and 11 with it; foxy is 10. -/
theorem domain_id_precedence_nonfoxy_and_foxy_default_witness :
    (Context.domain_id
        { rcl_context := { valid := true, domainId := 10 }, shutdown_callback := none }).2
      = 10 ∧
    (Context.domain_id
        { rcl_context := { valid := true, domainId := 11 }, shutdown_callback := none }).2
      = 11 ∧
    (Context.domain_id_foxy
        { rosDomainId := some 10, platformDefault := 0, initOutcome := fun _ => none }
        { rcl_context := { valid := true, domainId := 11 }, shutdown_callback := none }).2
      = 10 ∧
    (Context.domain_id_foxy
        { rosDomainId := some 10, platformDefault := 0, initOutcome := fun _ => none }
        { rcl_context := { valid := true, domainId := 10 }, shutdown_callback := none }).2
      = 10 :=
  domain_id_precedence_nonfoxy_and_foxy_default
    { rosDomainId := some 10, platformDefault := 0, initOutcome := fun _ => none }
    10 [] 11
    { rcl_context := { valid := true, domainId := 10 }, shutdown_callback := none }
    { rcl_context := { valid := true, domainId := 11 }, shutdown_callback := none }
    rfl rfl rfl

end Rclrs
